import Mathlib

/-
Verification development for the contracts extraction pipeline.

The Python sources under core/ are shallowly embedded below:
  - core/models.py                  (Contract.apply_clarifications, PaymentMilestone)
  - core/parsers/pdf_parser.py      (PDFParser)
  - core/parsers/pattern_extractor.py (PatternExtractor)
  - core/services/ai_extractor.py   (AIExtractor)
  - core/services/contract_processor.py (ContractProcessor)

Machine-level conventions of the embedding:
  - Python strings are Lean String values; str.strip, str.lower, substring
    containment (the in operator) and str.title are modelled below.
  - datetime.date is modelled by PDate (proleptic Gregorian, as Python);
    date arithmetic goes through the civil/rata-die conversion, which is
    the same algorithm CPython uses semantically.
  - datetime.strptime is modelled per format string actually used by the
    code, following CPython _strptime: bounded numeric fields with the
    alternation order of TimeRE, month names case-insensitively, a format
    space matching one or more whitespace characters, whole-string match,
    and date validity enforced by the datetime constructor.
  - decimal.Decimal values (always nonnegative here) are modelled by PDec,
    a coefficient together with a decimal exponent scale.
  - JSON values are modelled by Json; JSON numbers are modelled as
    integers, which covers every numeric literal these claims touch.
-/

namespace Contracts

/-! ## Python string primitives -/

/-- Whitespace characters recognised by Python str.strip and the regex
class backslash-s (ASCII range). -/
def pyWs (c : Char) : Bool :=
  c = ' ' || c = '\t' || c = '\n' || c = '\x0d' || c = '\x0b' || c = '\x0c'

/-- Model of Python str.strip on a character list. -/
def stripChars (cs : List Char) : List Char :=
  ((cs.dropWhile pyWs).reverse.dropWhile pyWs).reverse

/-- Model of Python str.strip. -/
def pyStrip (s : String) : String := ⟨stripChars s.data⟩

/-- Model of Python str.lower for the ASCII strings this code handles. -/
def pyLower (s : String) : String := ⟨s.data.map Char.toLower⟩

/-- Substring containment on character lists, the Python in operator on
strings. -/
def containsSub (needle : List Char) : List Char → Bool
  | [] => needle.isEmpty
  | c :: t => needle.isPrefixOf (c :: t) || containsSub needle t

/-- Model of Python str.title restricted to the lower-case field names the
code feeds it: the first letter of every alphabetic run is upper-cased. -/
def titleChars : Bool → List Char → List Char
  | _, [] => []
  | prevAlpha, c :: t =>
    if c.isAlpha then
      (if prevAlpha then c.toLower else c.toUpper) :: titleChars true t
    else
      c :: titleChars false t

/-- Model of Python str.title. -/
def pyTitle (s : String) : String := ⟨titleChars false s.data⟩

/-- Numeric value of a decimal digit character. -/
def digitVal (c : Char) : Nat := c.toNat - 48

/-- Value of a list of decimal digit characters. -/
def natOfDigits (cs : List Char) : Nat :=
  cs.foldl (fun acc c => acc * 10 + digitVal c) 0

/-! ## Dates (datetime.date model) -/

/-- Proleptic Gregorian calendar date, the model of datetime.date. -/
structure PDate where
  year : Int
  month : Nat
  day : Nat
deriving DecidableEq, Repr

/-- Gregorian leap-year test. -/
def isLeap (y : Int) : Bool :=
  y % 4 = 0 && (y % 100 ≠ 0 || y % 400 = 0)

/-- Days in a month of a given year. -/
def daysInMonth (y : Int) (m : Nat) : Nat :=
  if m = 2 then (if isLeap y then 29 else 28)
  else if m = 4 || m = 6 || m = 9 || m = 11 then 30
  else 31

/-- Rata-die style day count of a civil date (the days-from-civil
algorithm, which matches datetime.date ordinal arithmetic). -/
def daysFromCivil (d : PDate) : Int :=
  let y := if d.month ≤ 2 then d.year - 1 else d.year
  let era := Int.fdiv y 400
  let yoe := y - era * 400
  let mp : Int := (Int.ofNat d.month + 9) % 12
  let doy := Int.fdiv (153 * mp + 2) 5 + Int.ofNat d.day - 1
  let doe := yoe * 365 + Int.fdiv yoe 4 - Int.fdiv yoe 100 + doy
  era * 146097 + doe - 719468

/-- Inverse of daysFromCivil (the civil-from-days algorithm). -/
def civilFromDays (z0 : Int) : PDate :=
  let z := z0 + 719468
  let era := Int.fdiv z 146097
  let doe := z - era * 146097
  let yoe := Int.fdiv (doe - Int.fdiv doe 1460 + Int.fdiv doe 36524 - Int.fdiv doe 146096) 365
  let y := yoe + era * 400
  let doy := doe - (365 * yoe + Int.fdiv yoe 4 - Int.fdiv yoe 100)
  let mp := Int.fdiv (5 * doy + 2) 153
  let d := doy - Int.fdiv (153 * mp + 2) 5 + 1
  let m := if mp < 10 then mp + 3 else mp - 9
  ⟨if m ≤ 2 then y + 1 else y, m.toNat, d.toNat⟩

/-- Model of date + timedelta(days=n). -/
def addDays (d : PDate) (n : Int) : PDate :=
  civilFromDays (daysFromCivil d + n)

/-- Lexicographic strict order on dates, the Python date comparison. -/
def pdateLt (a b : PDate) : Bool :=
  a.year < b.year ||
  (a.year = b.year && (a.month < b.month ||
    (a.month = b.month && a.day < b.day)))

/-- Left-pad a numeral string with zeros. -/
def padZeros (width : Nat) (s : String) : String :=
  ⟨List.replicate (width - s.data.length) '0' ++ s.data⟩

/-- ISO rendering of a date, the Python str(date) / strftime Y-m-d. -/
def isoDate (d : PDate) : String :=
  padZeros 4 (toString d.year) ++ "-" ++ padZeros 2 (toString d.month) ++ "-"
    ++ padZeros 2 (toString d.day)

/-! ## strptime model

CPython compiles each directive to a bounded regex
(Y: four digits; m: 1[0-2]|0[1-9]|[1-9]; d: 3[01]|[12]d|0[1-9]|[1-9];
B/b: month-name alternation, case-insensitive), requires the whole string
to match, and then the datetime constructor validates the calendar date.
The candidate lists below reproduce the alternation order, and matching
backtracks through them. -/

/-- Exactly four digits, the Y directive. -/
def parseYear4 : List Char → Option (Nat × List Char)
  | a :: b :: c :: d :: rest =>
    if a.isDigit && b.isDigit && c.isDigit && d.isDigit then
      some (digitVal a * 1000 + digitVal b * 100 + digitVal c * 10 + digitVal d, rest)
    else none
  | _ => none

/-- Match candidates for the m directive, in regex alternation order. -/
def monthCands : List Char → List (Nat × List Char)
  | a :: b :: rest =>
    (if a = '1' && (b = '0' || b = '1' || b = '2') then [(10 + digitVal b, rest)] else []) ++
    (if a = '0' && b.isDigit && b ≠ '0' then [(digitVal b, rest)] else []) ++
    (if a.isDigit && a ≠ '0' then [(digitVal a, b :: rest)] else [])
  | [a] => if a.isDigit && a ≠ '0' then [(digitVal a, [])] else []
  | [] => []

/-- Match candidates for the d directive, in regex alternation order. -/
def dayCands : List Char → List (Nat × List Char)
  | a :: b :: rest =>
    (if a = '3' && (b = '0' || b = '1') then [(30 + digitVal b, rest)] else []) ++
    (if (a = '1' || a = '2') && b.isDigit then [(digitVal a * 10 + digitVal b, rest)] else []) ++
    (if a = '0' && b.isDigit && b ≠ '0' then [(digitVal b, rest)] else []) ++
    (if a.isDigit && a ≠ '0' then [(digitVal a, b :: rest)] else [])
  | [a] => if a.isDigit && a ≠ '0' then [(digitVal a, [])] else []
  | [] => []

/-- Full English month names with their numbers, the B directive data. -/
def monthNamesFull : List (String × Nat) :=
  [("january", 1), ("february", 2), ("march", 3), ("april", 4), ("may", 5),
   ("june", 6), ("july", 7), ("august", 8), ("september", 9), ("october", 10),
   ("november", 11), ("december", 12)]

/-- Abbreviated English month names, the b directive data. -/
def monthNamesAbbr : List (String × Nat) :=
  [("jan", 1), ("feb", 2), ("mar", 3), ("apr", 4), ("may", 5), ("jun", 6),
   ("jul", 7), ("aug", 8), ("sep", 9), ("oct", 10), ("nov", 11), ("dec", 12)]

/-- Case-insensitive month-name match against a fixed name table. -/
def parseMonthName (table : List (String × Nat)) (cs : List Char) :
    Option (Nat × List Char) :=
  (table.filterMap fun p =>
    if p.1.data.isPrefixOf (cs.map Char.toLower) then
      some (p.2, cs.drop p.1.data.length)
    else none).head?

/-- One or more whitespace characters, a format-string space. -/
def parseWs (cs : List Char) : Option (List Char) :=
  let rest := cs.dropWhile pyWs
  if rest.length < cs.length then some rest else none

/-- A single literal character of the format string. -/
def parseLit (c : Char) : List Char → Option (List Char)
  | x :: rest => if x = c then some rest else none
  | [] => none

/-- First successful application over a candidate list (regex
backtracking through an alternation). -/
def firstValid (f : α → Option β) : List α → Option β
  | [] => none
  | x :: xs =>
    match f x with
    | some r => some r
    | none => firstValid f xs

/-- The date formats that appear in the code. -/
inductive DateFmt where
  | ymd          -- Y-m-d
  | mdySlash     -- m/d/Y
  | dmySlash     -- d/m/Y
  | mdyDash      -- m-d-Y
  | dmyDash      -- d-m-Y
  | monthDYc (full : Bool)  -- B d, Y (or b d, Y)
  | monthDY (full : Bool)   -- B d Y (or b d Y)
  | dMonthY      -- d B Y
deriving DecidableEq, Repr

/-- Raw field match of the Y-m-d format. -/
def matchYmd (cs : List Char) : Option (Nat × Nat × Nat) :=
  match parseYear4 cs with
  | none => none
  | some (y, r1) =>
    match parseLit '-' r1 with
    | none => none
    | some r2 =>
      firstValid (fun mc =>
        match parseLit '-' mc.2 with
        | none => none
        | some r3 =>
          firstValid (fun dc =>
            if dc.2.isEmpty then some (y, mc.1, dc.1) else none) (dayCands r3))
        (monthCands r2)

/-- Raw field match of the two-numbers-then-year formats; ord gives the
field meaning (true when the month comes first). -/
def matchNNY (monthFirst : Bool) (sep : Char) (cs : List Char) :
    Option (Nat × Nat × Nat) :=
  let first := if monthFirst then monthCands else dayCands
  let second := if monthFirst then dayCands else monthCands
  firstValid (fun fc =>
    match parseLit sep fc.2 with
    | none => none
    | some r2 =>
      firstValid (fun sc =>
        match parseLit sep sc.2 with
        | none => none
        | some r4 =>
          match parseYear4 r4 with
          | some (y, []) =>
            if monthFirst then some (y, fc.1, sc.1) else some (y, sc.1, fc.1)
          | _ => none) (second r2)) (first cs)

/-- Raw field match of B-d-comma-Y and B-d-Y formats. -/
def matchMonthDY (full : Bool) (comma : Bool) (cs : List Char) :
    Option (Nat × Nat × Nat) :=
  let table := if full then monthNamesFull else monthNamesAbbr
  match parseMonthName table cs with
  | none => none
  | some (m, r1) =>
    match parseWs r1 with
    | none => none
    | some r2 =>
      firstValid (fun dc =>
        let afterComma : Option (List Char) :=
          if comma then parseLit ',' dc.2 else some dc.2
        match afterComma with
        | none => none
        | some r3 =>
          match parseWs r3 with
          | none => none
          | some r4 =>
            match parseYear4 r4 with
            | some (y, []) => some (y, m, dc.1)
            | _ => none) (dayCands r2)

/-- Raw field match of the d-B-Y format. -/
def matchDMonthY (cs : List Char) : Option (Nat × Nat × Nat) :=
  firstValid (fun dc =>
    match parseWs dc.2 with
    | none => none
    | some r1 =>
      match parseMonthName monthNamesFull r1 with
      | none => none
      | some (m, r2) =>
        match parseWs r2 with
        | none => none
        | some r3 =>
          match parseYear4 r3 with
          | some (y, []) => some (y, m, dc.1)
          | _ => none) (dayCands cs)

/-- Validation performed by the datetime constructor. -/
def mkValidDate (y m d : Nat) : Option PDate :=
  if 1 ≤ y && 1 ≤ m && m ≤ 12 && 1 ≤ d && d ≤ daysInMonth (Int.ofNat y) m then
    some ⟨Int.ofNat y, m, d⟩
  else none

/-- Model of datetime.strptime(s, fmt).date() for the formats used by the
code; none models a ValueError. -/
def strptime (fmt : DateFmt) (s : String) : Option PDate :=
  let raw :=
    match fmt with
    | .ymd => matchYmd s.data
    | .mdySlash => matchNNY true '/' s.data
    | .dmySlash => matchNNY false '/' s.data
    | .mdyDash => matchNNY true '-' s.data
    | .dmyDash => matchNNY false '-' s.data
    | .monthDYc full => matchMonthDY full true s.data
    | .monthDY full => matchMonthDY full false s.data
    | .dMonthY => matchDMonthY s.data
  match raw with
  | some (y, m, d) => mkValidDate y m d
  | none => none

/-- First format of a list that parses, the for-loop over formats with
try/except ValueError/continue used throughout the code. -/
def firstParse (fmts : List DateFmt) (s : String) : Option PDate :=
  firstValid (fun f => strptime f s) fmts

/-! ## Decimal model (decimal.Decimal, nonnegative values) -/

/-- A nonnegative Decimal value: coefficient together with the number of
digits after the decimal point. -/
structure PDec where
  mant : Int
  scale : Nat
deriving DecidableEq, Repr

/-- Numeric value of a decimal. -/
def PDec.toRat (x : PDec) : ℚ := (x.mant : ℚ) / ((10 : ℚ) ^ x.scale)

/-- Model of the Decimal constructor on the plain numeral strings this
code produces (digits with at most one point, no sign, no exponent);
none models InvalidOperation. -/
def decParse (s : String) : Option PDec :=
  match s.data.splitOn '.' with
  | [ip] =>
    if ip ≠ [] && ip.all Char.isDigit then some ⟨natOfDigits ip, 0⟩ else none
  | [ip, fp] =>
    if (ip ++ fp) ≠ [] && ip.all Char.isDigit && fp.all Char.isDigit then
      some ⟨natOfDigits (ip ++ fp), fp.length⟩
    else none
  | _ => none

/-- Model of str(Decimal) for nonnegative values with a nonpositive
exponent, the only ones arising here. -/
def PDec.render (x : PDec) : String :=
  let ds := (toString x.mant).data
  if x.scale = 0 then ⟨ds⟩
  else if ds.length ≤ x.scale then
    ⟨'0' :: '.' :: (List.replicate (x.scale - ds.length) '0' ++ ds)⟩
  else
    ⟨ds.take (ds.length - x.scale) ++ '.' :: ds.drop (ds.length - x.scale)⟩

/-! ## Regex models for the numeric answers in apply_clarifications -/

/-- Span of leading decimal digits. -/
def digitSpan (cs : List Char) : List Char × List Char :=
  (cs.takeWhile Char.isDigit, cs.dropWhile Char.isDigit)

/-- Greedy comma-groups loop: each iteration consumes a comma followed by
exactly three digits. -/
def commaGroups : List Char → List Char × List Char
  | ',' :: a :: b :: c :: rest =>
    if a.isDigit && b.isDigit && c.isDigit then
      let (m, r) := commaGroups rest
      (',' :: a :: b :: c :: m, r)
    else ([], ',' :: a :: b :: c :: rest)
  | cs => ([], cs)

/-- Optional fractional part: a point followed by one or more digits. -/
def fracPart : List Char → List Char × List Char
  | '.' :: c :: rest =>
    if c.isDigit then
      let (ds, r) := digitSpan rest
      ('.' :: c :: ds, r)
    else ([], '.' :: c :: rest)
  | cs => ([], cs)

/-- Match of the number shape digits, comma groups, optional fraction
at the head of the input; returns the matched text and the rest. -/
def matchNumberShape (cs : List Char) : Option (List Char × List Char) :=
  let (ds, r1) := digitSpan cs
  if ds = [] then none
  else
    let (cg, r2) := commaGroups r1
    let (fp, r3) := fracPart r2
    some (ds ++ cg ++ fp, r3)

/-- Model of re.search of the anchored number regex used for total_value
answers: a match must start at the first character. -/
def leadNumber (s : String) : Option (List Char) :=
  (matchNumberShape s.data).map Prod.fst

/-- Model of re.findall of the unanchored number regex: scan left to
right, emitting non-overlapping matches. -/
def findNumbersGo : Nat → List Char → List (List Char)
  | 0, _ => []
  | _, [] => []
  | Nat.succ fuel, c :: rest =>
    if c.isDigit then
      match matchNumberShape (c :: rest) with
      | some (m, r) => m :: findNumbersGo fuel r
      | none => findNumbersGo fuel rest
    else findNumbersGo fuel rest

/-- All number matches in a string. -/
def findNumbers (cs : List Char) : List (List Char) :=
  findNumbersGo cs.length cs

/-- Model of re.search for the hours regex (digits, optional whitespace,
the word hour with optional s) at one position. -/
def hoursAt (cs : List Char) : Option Nat :=
  let (ds, r1) := digitSpan cs
  if ds = [] then none
  else
    let r2 := r1.dropWhile pyWs
    if "hour".data.isPrefixOf r2 then some (natOfDigits ds) else none

/-- First hours match anywhere in the string. -/
def hoursFromText (s : String) : Option Nat :=
  firstValid hoursAt s.data.tails

/-- Continuation of the rate regex after the numeric group: optional
whitespace then either per-whitespace-hour or slash-hr. -/
def rateTail (cs : List Char) : Bool :=
  let r := cs.dropWhile pyWs
  (if "per".data.isPrefixOf r then
    "hour".data.isPrefixOf ((r.drop 3).dropWhile pyWs)
  else false) ||
  "/hr".data.isPrefixOf r

/-- Model of re.search for the rate regex (optional dollar sign, digits
with optional fraction, then a per-hour marker) at one position; returns
the captured numeric group. -/
def rateAt (cs : List Char) : Option (List Char) :=
  let cs := match cs with
    | '$' :: rest => rest
    | _ => cs
  let (ds, r1) := digitSpan cs
  if ds = [] then none
  else
    let withFrac : Option (List Char) :=
      match r1 with
      | '.' :: c :: rest =>
        if c.isDigit then
          let (fs, r2) := digitSpan rest
          if rateTail r2 then some (ds ++ '.' :: c :: fs) else none
        else none
      | _ => none
    match withFrac with
    | some g => some g
    | none => if rateTail r1 then some ds else none

/-- First rate match anywhere in the string. -/
def rateFromText (s : String) : Option (List Char) :=
  firstValid rateAt s.data.tails

/-! ## PatternExtractor (core/parsers/pattern_extractor.py) -/

/-- Span of digits and commas, the character class digit-or-comma. -/
def dcSpan (cs : List Char) : List Char × List Char :=
  (cs.takeWhile (fun c => c.isDigit || c = ','),
   cs.dropWhile (fun c => c.isDigit || c = ','))

/-- Model of re.match of the full currency regex (dollar sign, digits or
commas, a point, two digits) used by _calculate_match_confidence. -/
def matchesCurrencyFull (t : String) : Bool :=
  match t.data with
  | '$' :: rest =>
    let (ds, r) := dcSpan rest
    ds ≠ [] &&
      (match r with
       | '.' :: a :: b :: _ => a.isDigit && b.isDigit
       | _ => false)
  | _ => false

/-- Model of re.match of the loose currency regex (dollar sign then at
least one digit or comma). -/
def matchesCurrencyLoose (t : String) : Bool :=
  match t.data with
  | '$' :: c :: _ => c.isDigit || c = ','
  | _ => false

/-- Model of _calculate_match_confidence: base 50, format bonuses for the
three amount-like types, phrase bonus for terms, short-match penalty,
clamped to zero..hundred. -/
def calcMatchConfidence (matchText patternType : String) : ℚ :=
  let confidence : ℚ := 50
  let confidence :=
    if ["dollar_amounts", "hourly_rates", "monthly_rates"].contains patternType then
      (if matchesCurrencyFull matchText then confidence + 30
       else if matchesCurrencyLoose matchText then confidence + 20
       else confidence)
    else confidence
  let confidence :=
    if ["payment_terms", "due_on_receipt"].contains patternType then
      confidence + 20
    else confidence
  let confidence :=
    if matchText.data.length < 3 then confidence - 20 else confidence
  max 0 (min 100 confidence)

/-- Unit alternations of the rate regexes in _initialize_patterns. -/
def hourlyUnits : List String := ["hour", "hr", "hrs", "hourly"]

/-- Monthly-rate unit alternation. -/
def monthlyUnits : List String := ["month", "mo", "monthly"]

/-- Quarterly-rate unit alternation. -/
def quarterlyUnits : List String := ["quarter", "qtr", "quarterly"]

/-- Annual-rate unit alternation. -/
def annualUnits : List String := ["year", "yr", "annual", "annually"]

/-- Match of a rate regex (dollar sign, digits or commas, optional point
and digits, optional whitespace, slash, optional whitespace, unit word)
at one position, case-insensitively. -/
def ratePatternAt (units : List String) (cs : List Char) : Bool :=
  match cs with
  | '$' :: r1 =>
    let (ds, r2) := dcSpan r1
    if ds = [] then false
    else
      let contin := fun (r : List Char) =>
        match r.dropWhile pyWs with
        | '/' :: r3 =>
          units.any (fun u =>
            u.data.isPrefixOf ((r3.dropWhile pyWs).map Char.toLower))
        | _ => false
      (match r2 with
       | '.' :: r3 =>
         let (_, r4) := digitSpan r3
         contin r4 || contin ('.' :: r3)
       | _ => contin r2)
  | _ => false

/-- Existence of a rate-pattern match anywhere in the text, the
re.finditer scan. -/
def rateMatches (units : List String) (s : String) : Bool :=
  s.data.tails.any (ratePatternAt units)

/-- Typed values produced by _parse_match_value. -/
inductive PValue where
  | dec (d : PDec)
  | flt (q : ℚ)
  | intv (n : Nat)
  | dateIso (s : String)
  | dur (value : Nat) (unit : String)
deriving DecidableEq, Repr

/-- Model of Python float() on the unsigned plain numerals this code
produces. -/
def pyFloat (s : String) : Option ℚ :=
  (decParse (pyStrip s)).map PDec.toRat

/-- First run of digits anywhere in a string, the search for one numeric
group. -/
def firstDigitRun (cs : List Char) : Option Nat :=
  firstValid
    (fun t =>
      match t with
      | c :: _ => if c.isDigit then some (natOfDigits (t.takeWhile Char.isDigit)) else none
      | [] => none)
    cs.tails

/-- Formats tried by the PatternExtractor _parse_date helper, in order. -/
def patternDateFmts : List DateFmt :=
  [.mdySlash, .dmySlash, .mdyDash, .dmyDash,
   .monthDYc true, .monthDYc false, .monthDY true, .monthDY false]

/-- Model of PatternExtractor._parse_date: first matching format wins and
the date is rendered back in ISO form. -/
def patternParseDate (s : String) : Option String :=
  (firstParse patternDateFmts (pyStrip s)).map isoDate

/-- Duration unit alternation bases, in regex order. -/
def durationBases : List String := ["month", "year", "week", "day"]

/-- Duration unit match at a position: a base word case-insensitively,
with a trailing s included when present; the matched text is returned
lower-cased. -/
def durationUnitAt (cs : List Char) : Option String :=
  firstValid
    (fun base =>
      if base.data.isPrefixOf (cs.map Char.toLower) then
        match cs.drop base.data.length with
        | c :: _ =>
          if c = 's' || c = 'S' then some (base ++ "s") else some base
        | [] => some base
      else none)
    durationBases

/-- Model of re.search of the duration regex (digits, optional
whitespace, a unit word) at one position. -/
def durationAt (cs : List Char) : Option (Nat × String) :=
  let (ds, r1) := digitSpan cs
  if ds = [] then none
  else
    (durationUnitAt (r1.dropWhile pyWs)).map (fun u => (natOfDigits ds, u))

/-- First duration match anywhere in the text. -/
def durationFromText (s : String) : Option (Nat × String) :=
  firstValid durationAt s.data.tails

/-- The amount-like pattern types of _parse_match_value. -/
def amountPatternTypes : List String :=
  ["dollar_amounts", "hourly_rates", "monthly_rates", "quarterly_rates",
   "annual_rates"]

/-- Model of _parse_match_value: per pattern type, convert the matched
text into a typed value; none models both the fall-through and a caught
exception. -/
def parseMatchValue (matchText patternType : String) : Option PValue :=
  if amountPatternTypes.contains patternType then
    let amountStr :=
      (matchText.data.filter (fun c => c.isDigit || c = '.' || c = ','))
        |>.filter (fun c => c ≠ ',')
    (decParse ⟨amountStr⟩).map PValue.dec
  else if patternType = "percentages" then
    (pyFloat ⟨matchText.data.filter (fun c => c ≠ '%')⟩).map PValue.flt
  else if patternType = "payment_terms" then
    (firstDigitRun matchText.data).map PValue.intv
  else if patternType = "dates" then
    (patternParseDate matchText).map PValue.dateIso
  else if patternType = "milestone_phases" then
    (firstDigitRun matchText.data).map PValue.intv
  else if patternType = "contract_duration" then
    (durationFromText (pyLower matchText)).map (fun p => PValue.dur p.1 p.2)
  else none

/-! ## PaymentMilestone (core/models.py) -/

/-- The fields of PaymentMilestone that its overdue logic reads. -/
structure Milestone where
  due_date : PDate
  status : String
deriving DecidableEq, Repr

/-- Model of the is_overdue property: paid milestones are never overdue,
otherwise overdue exactly when today is past the due date. -/
def milestoneIsOverdue (today : PDate) (m : Milestone) : Bool :=
  if m.status = "paid" then false else pdateLt m.due_date today

/-- Model of PaymentMilestone.save: a pending milestone that is overdue
gets its status recomputed to overdue; nothing else changes. -/
def milestoneSave (today : PDate) (m : Milestone) : Milestone :=
  if milestoneIsOverdue today m && m.status = "pending" then
    { m with status := "overdue" }
  else m

/-! ## JSON values (json.loads output) -/

/-- Parsed JSON values; numbers are modelled as integers, which covers
every numeric literal the claims touch. -/
inductive Json where
  | null
  | bool (b : Bool)
  | num (n : Int)
  | str (s : String)
  | arr (xs : List Json)
  | obj (kvs : List (String × Json))

/-- Python truthiness of a parsed JSON value. -/
def jFalsy : Json → Bool
  | .null => true
  | .bool b => !b
  | .num n => n = 0
  | .str s => s = ""
  | .arr xs => xs.isEmpty
  | .obj kvs => kvs.isEmpty

/-- Model of dict.get on a parsed JSON object. -/
def jget (kvs : List (String × Json)) (k : String) : Option Json :=
  (kvs.find? (fun p => p.1 = k)).map Prod.snd

/-- Model of Python str() on scalar JSON values; container rendering is
schematic since no claim exercises it. -/
def pyStr : Json → String
  | .null => "None"
  | .bool true => "True"
  | .bool false => "False"
  | .num n => toString n
  | .str s => s
  | .arr _ => "[]"
  | .obj _ => "\x7b\x7d"

/-- A value assigned to a Django text column, coerced to text. -/
def jsonToStr (j : Json) : String :=
  match j with
  | .str s => s
  | _ => pyStr j

/-- Whether a JSON value is an object (a Python dict). -/
def isJsonObj : Json → Bool
  | .obj _ => true
  | _ => false

/-! ## AIExtractor (core/services/ai_extractor.py) -/

/-- Model of the Python in operator applied to a parsed JSON value, as in
the test for the extracted_data key: key lookup on a dict, element
equality on a list, substring test on a string, and a TypeError
otherwise. -/
def jsonContainsStr (j : Json) (k : String) : Except Unit Bool :=
  match j with
  | .obj kvs => .ok (kvs.any (fun p => p.1 = k))
  | .arr xs =>
    .ok (xs.any (fun x =>
      match x with
      | .str s => s = k
      | _ => false))
  | .str s => .ok (containsSub k.data s.data)
  | _ => .error ()

/-- Model of _parse_ai_response after JSON decoding: a decoded value that
contains the extracted_data key is returned as-is, any other decoded
value is wrapped into the two-section structure with an empty
clarification list; the error case is the TypeError of the containment
test. -/
def parseAiResponseJ (j : Json) : Except Unit Json :=
  match jsonContainsStr j "extracted_data" with
  | .ok true => .ok j
  | .ok false =>
    .ok (.obj [("extracted_data", j), ("clarifications_needed", .arr [])])
  | .error e => .error e

/-- Model of _parse_ai_response including the decode step: none in the
input models a json.JSONDecodeError, which is re-raised as a ValueError. -/
def aiParseResponse (decoded : Option Json) : Except Unit Json :=
  match decoded with
  | none => .error ()
  | some j => parseAiResponseJ j

/-- The exact two-section response shape named by the specification: a
top-level object whose keys are extracted_data and clarifications_needed
and nothing else. -/
def twoSectionShape : Json → Bool
  | .obj kvs =>
    kvs.any (fun p => p.1 = "extracted_data") &&
    kvs.any (fun p => p.1 = "clarifications_needed") &&
    kvs.all (fun p => p.1 = "extracted_data" || p.1 = "clarifications_needed")
  | _ => false

/-- Model of _clean_string: falsy values become the empty string, strings
are stripped, anything else is rendered and stripped. -/
def cleanString (j : Json) : String :=
  if jFalsy j then ""
  else
    match j with
    | .str s => pyStrip s
    | _ => pyStrip (pyStr j)

/-- Model of _parse_numeric_value: None, the literal null and the empty
string give None; numbers (and booleans, integers in Python) convert
directly; strings are cleaned of currency symbols and commas and parsed,
with None on failure. -/
def parseNumericValue (j : Json) : Option ℚ :=
  match j with
  | .null => none
  | .num n => some (n : ℚ)
  | .bool b => some (if b then 1 else 0)
  | .str s =>
    if s = "null" || s = "" then none
    else
      pyFloat ⟨s.data.filter (fun c => c ≠ '$' && c ≠ ',' && c ≠ '€' && c ≠ '£')⟩
  | _ => none

/-- Formats tried by AIExtractor._parse_date, in order (the first one is
listed twice in the source). -/
def aiDateFmts : List DateFmt :=
  [.ymd, .mdySlash, .dmySlash, .ymd, .monthDYc true, .dMonthY]

/-- Model of AIExtractor._parse_date: falsy values and the literal null
give None, strings are tried against the format list, anything else is
None. -/
def aiParseDate (j : Json) : Option String :=
  match j with
  | .str s =>
    if s = "" || s = "null" then none
    else (firstParse aiDateFmts (pyStrip s)).map isoDate
  | _ => none

/-- A validated milestone entry. -/
structure VMilestone where
  amount : Option ℚ
  invoice_date : Option String
  due_date : Option String
  description : String
deriving DecidableEq, Repr

/-- Model of _validate_milestones: non-list input gives an empty list,
non-dict entries are skipped, and an entry is kept only when it has an
amount or a description. -/
def validateMilestones (j : Json) : List VMilestone :=
  match j with
  | .arr xs =>
    xs.filterMap (fun m =>
      match m with
      | .obj kvs =>
        let vm : VMilestone :=
          { amount := parseNumericValue ((jget kvs "amount").getD .null)
            invoice_date := aiParseDate ((jget kvs "invoice_date").getD .null)
            due_date := aiParseDate ((jget kvs "due_date").getD .null)
            description := cleanString ((jget kvs "description").getD (.str "")) }
        if vm.amount.isSome || vm.description ≠ "" then some vm else none
      | _ => none)
  | _ => []

/-- The validated extraction data assembled by _validate_extracted_data
(the metadata keys added afterwards are carried separately). -/
structure ValidatedData where
  client_name : String
  total_value : Option ℚ
  currency : String
  start_date : Option String
  end_date : Option String
  payment_milestones : List VMilestone
  payment_frequency : String
  confidence_score : ℚ
deriving DecidableEq, Repr

/-- Model of _validate_extracted_data over the extracted_data object. -/
def validateExtractedData (kvs : List (String × Json)) : ValidatedData :=
  { client_name := cleanString ((jget kvs "client_name").getD (.str "Unknown Client"))
    total_value := parseNumericValue ((jget kvs "total_value").getD .null)
    currency := cleanString ((jget kvs "currency").getD (.str "USD"))
    start_date := aiParseDate ((jget kvs "start_date").getD .null)
    end_date := aiParseDate ((jget kvs "end_date").getD .null)
    payment_milestones := validateMilestones ((jget kvs "payment_milestones").getD (.arr []))
    payment_frequency := cleanString ((jget kvs "payment_frequency").getD (.str "one_time"))
    confidence_score := 95 }

/-- A persisted ContractClarification row as created by
_save_clarifications: answered defaults to False and no answer is
recorded. -/
structure ClarRow where
  field_name : String
  ai_question : String
  context_snippet : String
  page_number : Option Json
  answered : Bool
  user_answer : Option String

/-- Model of one iteration of _save_clarifications: a dict entry creates
one row (with the unknown default for a missing field name and a falsy
page dropped to None); a non-dict entry raises inside the per-row try
block and is skipped. Database-level insert failures (for example a null
value for a non-null text column) would likewise be skipped but are not
modelled; the row stores the text coercion of each value. -/
def mkClarRow (e : Json) : Option ClarRow :=
  match e with
  | .obj kvs =>
    some
      { field_name := jsonToStr ((jget kvs "field").getD (.str "unknown"))
        ai_question := jsonToStr ((jget kvs "question").getD (.str ""))
        context_snippet := jsonToStr ((jget kvs "context").getD (.str ""))
        page_number :=
          match jget kvs "page" with
          | some p => if jFalsy p then none else some p
          | none => none
        answered := false
        user_answer := none }
  | _ => none

/-- Model of the clarification tail of one processing run: the extractor
computes has_clarifications as a nonemptiness test and persists rows for
the entries (guarded by the same truthiness test), and
_update_contract_with_data chooses the final status from
has_clarifications. -/
def processClarifications (entries : List Json) : String × List ClarRow :=
  let hasClar := decide (entries.length > 0)
  let rows := if entries.isEmpty then [] else entries.filterMap mkClarRow
  ((if hasClar then "needs_clarification" else "completed"), rows)

/-! ## PDFParser (core/parsers/pdf_parser.py)

The two PDF libraries are external; a PdfBehavior value records what they
would produce for one file: per-page text and raw tables for pdfplumber,
per-page text for PyPDF2, with error alternatives at file and page level.
The extraction pipeline over these inputs is translated from the source. -/

/-- One entry of the pages list of the extraction result. -/
structure PageRec where
  page_number : Nat
  text : String
  char_count : Nat
deriving DecidableEq, Repr

/-- One entry of the tables list of the extraction result; a cell of a
raw grid may be None. -/
structure TableRec where
  page_number : Nat
  table_number : Nat
  data : List (List (Option String))
  rows : Nat
  columns : Nat
deriving DecidableEq, Repr

/-- The result dictionary of extract_text_from_pdf. -/
structure TextResult where
  file_path : String
  file_size : Nat
  pages : List PageRec
  full_text : String
  tables : List TableRec
  extraction_method : String
  confidence_score : ℚ
  errors : List String
deriving DecidableEq, Repr

/-- What pdfplumber reports for one page. -/
structure PlumberPage where
  text : Option String
  tables : List (List (List (Option String)))
deriving DecidableEq, Repr

/-- External behaviour of one PDF file under the two libraries. -/
structure PdfBehavior where
  path : String
  fileExists : Bool
  fileSize : Nat
  plumber : Except String (List PlumberPage)
  pypdf : Except String (List (Except String String))

/-- The 10 MB size ceiling. -/
def maxFileSize : Nat := 10 * 1024 * 1024

/-- Case-insensitive pdf-extension test on the path. -/
def endsWithPdf (s : String) : Bool :=
  ".pdf".data.isSuffixOf (pyLower s).data

/-- Initial result dictionary. -/
def initResult (b : PdfBehavior) : TextResult :=
  { file_path := b.path, file_size := b.fileSize, pages := [],
    full_text := "", tables := [], extraction_method := "unknown",
    confidence_score := 0, errors := [] }

/-- Tables of one page, numbered from one; a table is kept when it is
nonempty with more than one row, and its column count is the length of
its first row. -/
def tablesGo (pageNum : Nat) : Nat → List (List (List (Option String))) → List TableRec
  | _, [] => []
  | tn, t :: rest =>
    (if t ≠ [] && t.length > 1 then
      [{ page_number := pageNum, table_number := tn, data := t,
         rows := t.length, columns := (t.headD []).length }]
    else []) ++ tablesGo pageNum (tn + 1) rest

/-- The pdfplumber page loop: pages with truthy text contribute a page
record, their tables, and a text part. -/
def plumberPages : Nat → List PlumberPage → List PageRec × List TableRec × List String
  | _, [] => ([], [], [])
  | i, p :: rest =>
    let (ps, ts, parts) := plumberPages (i + 1) rest
    match p.text with
    | some t =>
      if t ≠ "" then
        ({ page_number := i, text := t, char_count := t.data.length } :: ps,
         tablesGo i 1 p.tables ++ ts, t :: parts)
      else (ps, ts, parts)
    | none => (ps, ts, parts)

/-- Model of _extract_with_pdfplumber: an exception is recorded as a
nonfatal error, success sets the method, appends pages and tables and
joins the text parts. -/
def extractWithPdfplumber (b : PdfBehavior) (r : TextResult) : TextResult :=
  match b.plumber with
  | .error e => { r with errors := r.errors ++ ["pdfplumber failed: " ++ e] }
  | .ok pgs =>
    let (ps, ts, parts) := plumberPages 1 pgs
    { r with extraction_method := "pdfplumber",
             pages := r.pages ++ ps,
             tables := r.tables ++ ts,
             full_text := String.intercalate "\n\n" parts }

/-- The PyPDF2 page loop: a failing page is recorded as a nonfatal
error, pages with truthy text contribute a page record and a text part. -/
def pypdfPages : Nat → List (Except String String) → List PageRec × List String × List String
  | _, [] => ([], [], [])
  | i, pg :: rest =>
    let (ps, parts, errs) := pypdfPages (i + 1) rest
    match pg with
    | .error e =>
      (ps, parts, ("Page " ++ toString i ++ " extraction failed: " ++ e) :: errs)
    | .ok t =>
      if t ≠ "" then
        ({ page_number := i, text := t, char_count := t.data.length } :: ps,
         t :: parts, errs)
      else (ps, parts, errs)

/-- Model of the successful branch of _extract_with_pypdf2: the method is
replaced, pages are appended, the full text is replaced by the join of
the PyPDF2 parts, and page errors are appended. -/
def extractWithPypdf2Ok (pgs : List (Except String String)) (r : TextResult) : TextResult :=
  let (ps, parts, errs) := pypdfPages 1 pgs
  { r with extraction_method := "pypdf2",
           pages := r.pages ++ ps,
           full_text := String.intercalate "\n\n" parts,
           errors := r.errors ++ errs }

/-- The payment-domain keyword list of _calculate_confidence_score. -/
def pdfKeywords : List String :=
  ["payment", "invoice", "billing", "fee", "rate", "amount",
   "milestone", "retainer", "hourly", "monthly", "quarterly"]

/-- Number of payment keywords contained in the lower-cased text. -/
def keywordCount (t : String) : Nat :=
  (pdfKeywords.filter (fun k => containsSub k.data (pyLower t).data)).length

/-- Model of _calculate_confidence_score, following the sequential
accumulation of the source. -/
def calcConfidenceScore (r : TextResult) : ℚ :=
  let score : ℚ := 0
  let score := if pyStrip r.full_text ≠ "" then score + 30 else score
  let score := if r.pages.length > 1 then score + 10 else score
  let score := if !r.tables.isEmpty then score + 20 else score
  let textLength := r.full_text.data.length
  let score :=
    if textLength > 5000 then score + 20
    else if textLength > 2000 then score + 10
    else score
  let score := score - (r.errors.length : ℚ) * 5
  let score := score + min ((keywordCount r.full_text : ℚ) * 2) 20
  max 0 (min 100 score)

/-- Assignment of the computed confidence into the result. -/
def finishResult (r : TextResult) : TextResult :=
  { r with confidence_score := calcConfidenceScore r }

/-- Model of extract_text_from_pdf: input validation errors raise; the
pdfplumber pass runs first, the PyPDF2 pass runs when the stripped text
is empty and its file-level failure aborts the extraction; on success the
confidence is computed over the final result. -/
def extractTextFromPdf (b : PdfBehavior) : Except String TextResult :=
  if !b.fileExists then .error ("PDF file not found: " ++ b.path)
  else if !endsWithPdf b.path then .error ("File is not a PDF: " ++ b.path)
  else if b.fileSize > maxFileSize then
    .error ("File too large: " ++ toString b.fileSize ++ " bytes (max: "
      ++ toString maxFileSize ++ ")")
  else
    let r1 := extractWithPdfplumber b (initResult b)
    if pyStrip r1.full_text = "" then
      match b.pypdf with
      | .error e => .error ("Failed to extract text from PDF: " ++ e)
      | .ok pgs => .ok (finishResult (extractWithPypdf2Ok pgs r1))
    else .ok (finishResult r1)

/-- The keyword list of _is_payment_table. -/
def pdfTableKeywords : List String :=
  ["payment", "invoice", "amount", "due date", "milestone",
   "schedule", "billing", "fee", "rate", "total", "date",
   "phase", "deliverable", "installment"]

/-- Joined lower-cased header text of a table row, truthy cells only. -/
def headerText (row : List (Option String)) : String :=
  pyLower (String.intercalate " "
    (row.filterMap (fun c =>
      match c with
      | some s => if s ≠ "" then some s else none
      | none => none)))

/-- Model of _is_payment_table: at least two rows, a truthy header row,
and at least two payment keywords in the header text. -/
def isPaymentTable (t : TableRec) : Bool :=
  if t.data.isEmpty || t.data.length < 2 then false
  else
    match t.data.head? with
    | some hr =>
      if hr.isEmpty then false
      else
        decide ((pdfTableKeywords.filter
          (fun k => containsSub k.data (headerText hr).data)).length ≥ 2)
    | none => false

/-- Model of find_invoice_schedule_tables. -/
def findInvoiceScheduleTables (r : TextResult) : List TableRec :=
  r.tables.filter isPaymentTable

/-- Match of the dollar-amount regex (dollar sign, digits or commas,
optional point and digit run) at one position. -/
def dollarMatchAt (cs : List Char) : Option (List Char × List Char) :=
  match cs with
  | '$' :: r1 =>
    let (ds, r2) := dcSpan r1
    if ds = [] then none
    else
      match r2 with
      | '.' :: r3 =>
        let (fs, r4) := digitSpan r3
        some ('$' :: ds ++ '.' :: fs, r4)
      | _ => some ('$' :: ds, r2)
  | _ => none

/-- Left-to-right non-overlapping scan of the dollar-amount regex. -/
def dollarScanGo : Nat → List Char → List (List Char)
  | 0, _ => []
  | _, [] => []
  | Nat.succ fuel, c :: rest =>
    match dollarMatchAt (c :: rest) with
    | some (m, r) => m :: dollarScanGo fuel r
    | none => dollarScanGo fuel rest

/-- Model of extract_payment_amounts_from_text, keeping the positive
parsed amounts (position and context metadata are not modelled since no
claim reads them). -/
def extractPaymentAmountsFromText (s : String) : List PDec :=
  (dollarScanGo s.data.length s.data).filterMap (fun m =>
    match decParse ⟨m.filter (fun c => c ≠ '$' && c ≠ ',')⟩ with
    | some d => if d.toRat > 0 then some d else none
    | none => none)

/-- The payment-information dictionary of extract_payment_information;
fields absent from the failure dictionary are options. -/
structure PayInfo where
  file_path : String
  extraction_successful : Bool
  confidence_score : ℚ
  extraction_method : Option String
  text_length : Option Nat
  pages_processed : Option Nat
  payment_tables_found : Option Nat
  payment_amounts_found : Option Nat
  payment_tables : List TableRec
  payment_amounts : List PDec
  full_text : String
  errors : List String
  error : Option String
deriving DecidableEq, Repr

/-- Model of extract_payment_information: any exception from text
extraction produces the failure dictionary, success compiles the payment
information. -/
def extractPaymentInformation (b : PdfBehavior) : PayInfo :=
  match extractTextFromPdf b with
  | .ok r =>
    let ptables := findInvoiceScheduleTables r
    let pamounts := extractPaymentAmountsFromText r.full_text
    { file_path := b.path, extraction_successful := true,
      confidence_score := r.confidence_score,
      extraction_method := some r.extraction_method,
      text_length := some r.full_text.data.length,
      pages_processed := some r.pages.length,
      payment_tables_found := some ptables.length,
      payment_amounts_found := some pamounts.length,
      payment_tables := ptables, payment_amounts := pamounts,
      full_text := r.full_text, errors := r.errors, error := none }
  | .error e =>
    { file_path := b.path, extraction_successful := false,
      confidence_score := 0, extraction_method := none,
      text_length := none, pages_processed := none,
      payment_tables_found := none, payment_amounts_found := none,
      payment_tables := [], payment_amounts := [],
      full_text := "", errors := [e], error := some e }

/-- The confidence formula exactly as the claim states it, with the plus
thirty bonus conditioned on the text being non-empty. -/
def claimConfFormula (r : TextResult) : ℚ :=
  max 0 (min 100 (
    (if r.full_text ≠ "" then (30 : ℚ) else 0) +
    (if r.pages.length > 1 then 10 else 0) +
    (if !r.tables.isEmpty then 20 else 0) +
    (if r.full_text.data.length > 5000 then 20
     else if r.full_text.data.length > 2000 then 10 else 0) +
    min ((keywordCount r.full_text : ℚ) * 2) 20 -
    (r.errors.length : ℚ) * 5))

/-- The confidence formula with the plus thirty bonus conditioned on the
text containing a non-whitespace character, the amended claim. -/
def amendedConfFormula (r : TextResult) : ℚ :=
  max 0 (min 100 (
    (if pyStrip r.full_text ≠ "" then (30 : ℚ) else 0) +
    (if r.pages.length > 1 then 10 else 0) +
    (if !r.tables.isEmpty then 20 else 0) +
    (if r.full_text.data.length > 5000 then 20
     else if r.full_text.data.length > 2000 then 10 else 0) +
    min ((keywordCount r.full_text : ℚ) * 2) 20 -
    (r.errors.length : ℚ) * 5))

/-- Model of the warning accumulation of
ContractProcessor._extract_payment_data over one parser result; the
pattern census on non-empty text comes from the external PatternExtractor
call and is abstracted by patternTypeCount, while empty text skips the
census (the source guards it with a truthiness test). -/
def extractPaymentDataWarnings (pi : PayInfo) (patternTypeCount : String → Nat) : List String :=
  let numPatterns := if pi.full_text ≠ "" then patternTypeCount pi.full_text else 0
  (if pyStrip pi.full_text = "" then ["No text extracted from PDF"] else []) ++
  (if numPatterns = 0 then ["No payment patterns found"] else []) ++
  (if pi.confidence_score < 50 then ["Low confidence extraction"] else [])

/-! ## ContractProcessor mapping (core/services/contract_processor.py) -/

/-- Formats tried by ContractProcessor._parse_date_from_string, in order. -/
def procDateFmts : List DateFmt :=
  [.ymd, .mdySlash, .dmySlash, .monthDYc true]

/-- Model of _parse_date_from_string: a falsy argument (None or the empty
string) gives None, otherwise the first matching format wins. -/
def parseDateFromString (o : Option String) : Option PDate :=
  match o with
  | none => none
  | some s => if s = "" then none else firstParse procDateFmts s

/-- The contract fields assembled by _map_ai_data_to_models. -/
structure MappedContract where
  contract_name : String
  client_name : String
  total_value : Option ℚ
  currency : String
  start_date : Option PDate
  end_date : Option PDate
  extraction_method : String
  confidence_score : ℚ
deriving DecidableEq, Repr

/-- One mapped milestone. -/
structure MappedMilestone where
  milestone_name : String
  milestone_description : String
  due_date : Option PDate
  amount : Option ℚ
  status : String
deriving DecidableEq, Repr

/-- The mapped payment terms. -/
structure MappedTerms where
  payment_method : String
  payment_frequency : String
  grace_period_days : Nat
deriving DecidableEq, Repr

/-- The mapping result of _map_ai_data_to_models. -/
structure MappingResult where
  contract_data : MappedContract
  payment_milestones : List MappedMilestone
  payment_terms : MappedTerms
  confidence_score : ℚ
deriving DecidableEq, Repr

/-- Model of _map_ai_data_to_models over the validated extraction data
(whose keys are always present, so the dict.get defaults of the source
are never taken): dates are parsed, a missing end date defaults to the
start date plus 365 days when a start date exists, milestones are kept
when they have both an amount and a due date. -/
def mapAiDataToModels (v : ValidatedData) : MappingResult :=
  let start_date := parseDateFromString v.start_date
  let end_date0 := parseDateFromString v.end_date
  let end_date :=
    match end_date0, start_date with
    | none, some sd => some (addDays sd 365)
    | _, _ => end_date0
  { contract_data :=
      { contract_name := v.client_name
        client_name := v.client_name
        total_value := v.total_value
        currency := v.currency
        start_date := start_date
        end_date := end_date
        extraction_method := "ai_assisted"
        confidence_score := v.confidence_score }
    payment_milestones :=
      v.payment_milestones.filterMap (fun vm =>
        let m : MappedMilestone :=
          { milestone_name := vm.description
            milestone_description := vm.description
            due_date := parseDateFromString vm.due_date
            amount := vm.amount
            status := "pending" }
        if m.amount.isSome && m.due_date.isSome then some m else none)
    payment_terms :=
      { payment_method := "wire_transfer"
        payment_frequency := v.payment_frequency
        grace_period_days := 0 }
    confidence_score := v.confidence_score }

/-! ## Contract.apply_clarifications (core/models.py)

The contract record is reduced to the fields the method touches; the
clarification list stands for the answered-filtered queryset (its
database ordering is newest first, which the model takes as given in the
input list order). -/

/-- The contract fields read or written by apply_clarifications. -/
structure CState where
  start_date : Option PDate
  end_date : Option PDate
  client_name : String
  total_value : Option PDec
  currency : String
  contract_number : String
  notes : String
deriving DecidableEq, Repr

/-- A ContractClarification as seen by apply_clarifications. -/
structure Clarif where
  field_name : String
  user_answer : String
  answered : Bool
deriving DecidableEq, Repr

/-- Formats tried for date answers in apply_clarifications, in order. -/
def clarDateFmts : List DateFmt :=
  [.ymd, .mdySlash, .dmySlash, .monthDYc true, .dMonthY]

/-- The open-ended keywords recognised for an end-date answer. -/
def ongoingWords : List String := ["ongoing", "perpetual", "indefinite", "none"]

/-- Model of joining a clarified line onto the notes text. -/
def appendNote (notes txt : String) : String :=
  if notes ≠ "" then notes ++ "\n\n" ++ txt else txt

/-- The currency keyword table, in source (dict insertion) order. -/
def currencyPairs : List (String × String) :=
  [("dollar", "USD"), ("usd", "USD"), ("$", "USD"),
   ("euro", "EUR"), ("eur", "EUR"), ("€", "EUR"),
   ("pound", "GBP"), ("gbp", "GBP"), ("£", "GBP"),
   ("canadian", "CAD"), ("cad", "CAD"),
   ("australian", "AUD"), ("aud", "AUD")]

/-- First currency keyword contained in the lower-cased answer. -/
def currencyFromAnswer (ans : String) : Option String :=
  (currencyPairs.filterMap (fun p =>
    if containsSub p.1.data (pyLower ans).data then some p.2 else none)).head?

/-- Model of the total_value branch: a leading number is taken directly;
otherwise the largest of all numbers found; otherwise an hours times rate
computation; the returned string is the recorded update message. -/
def totalValueFromAnswer (ans : String) : Option (PDec × String) :=
  match leadNumber (pyStrip ans) with
  | some matched =>
    match decParse ⟨matched.filter (fun c => c ≠ ',')⟩ with
    | some v => some (v, "total_value updated to " ++ v.render)
    | none => none
  | none =>
    let nums := findNumbers ans.data
    if !nums.isEmpty then
      match nums.filterMap (fun n => decParse ⟨n.filter (fun c => c ≠ ',')⟩) with
      | [] => none
      | v :: vs =>
        let mx := vs.foldl (fun a b => if b.toRat > a.toRat then b else a) v
        some (mx, "total_value updated to " ++ mx.render)
    else
      match hoursFromText (pyLower ans), rateFromText (pyLower ans) with
      | some h, some rg =>
        match decParse ⟨rg⟩ with
        | some rate =>
          let total : PDec := ⟨(h : Int) * rate.mant, rate.scale⟩
          some (total, "total_value calculated as " ++ toString h ++ " hours * $"
            ++ rate.render ++ " = $" ++ total.render)
        | none => none
      | _, _ => none

/-- Model of one loop iteration of apply_clarifications: the branch on
the lower-cased field name updates one contract field (or appends to the
notes) and records its update messages. -/
def applyOneClar (s : CState) (c : Clarif) : CState × List String :=
  let fn := pyLower c.field_name
  let ans := pyStrip c.user_answer
  if fn = "start_date" then
    match firstParse clarDateFmts ans with
    | some d => ({ s with start_date := some d }, ["start_date updated to " ++ isoDate d])
    | none => (s, [])
  else if fn = "end_date" then
    let step1 : CState × List String :=
      match firstParse clarDateFmts ans with
      | some d => ({ s with end_date := some d }, ["end_date updated to " ++ isoDate d])
      | none => (s, [])
    if ongoingWords.contains (pyLower ans) then
      ({ step1.1 with end_date := none }, step1.2 ++ ["end_date set to None (ongoing)"])
    else step1
  else if fn = "client_name" then
    ({ s with client_name := ans }, ["client_name updated to " ++ ans])
  else if fn = "total_value" then
    match totalValueFromAnswer ans with
    | some (v, msg) => ({ s with total_value := some v }, [msg])
    | none => (s, [])
  else if fn = "payment_terms" then
    ({ s with notes := appendNote s.notes ("Payment Terms (clarified): " ++ ans) },
     ["payment_terms added to notes"])
  else if fn = "currency" then
    match currencyFromAnswer ans with
    | some cur => ({ s with currency := cur }, ["currency updated to " ++ cur])
    | none => (s, [])
  else if fn = "contract_number" then
    ({ s with contract_number := ans }, ["contract_number updated to " ++ ans])
  else
    ({ s with notes := appendNote s.notes (pyTitle fn ++ " (clarified): " ++ ans) },
     [fn ++ " added to notes"])

/-- The loop of apply_clarifications over the answered clarifications. -/
def applyClarLoop (s : CState) : List Clarif → CState × List String
  | [] => (s, [])
  | c :: t =>
    let r1 := applyOneClar s c
    let r2 := applyClarLoop r1.1 t
    (r2.1, r1.2 ++ r2.2)

/-- Model of apply_clarifications: iterate the answered clarifications
and return the updated contract with the updates_made list (the save at
the end persists the same values). -/
def applyClarifications (s : CState) (cs : List Clarif) : CState × List String :=
  applyClarLoop s (cs.filter (fun c => c.answered))

/-- Whether an Except value is a success. -/
def exceptIsOk : Except ε α → Bool
  | .ok _ => true
  | .error _ => false

/-! ## Derived views of apply_clarifications used in the proofs -/

/-- The update messages of one clarification, which depend only on the
clarification itself (evaluated at a fixed reference state). -/
def clarMsgs (c : Clarif) : List String :=
  (applyOneClar ⟨none, none, "", none, "", "", ""⟩ c).2

/-- The value a clarification writes into start_date, when it does. -/
def startValOf (c : Clarif) : Option (Option PDate) :=
  if pyLower c.field_name = "start_date" then
    (firstParse clarDateFmts (pyStrip c.user_answer)).map some
  else none

/-- The value a clarification writes into end_date, when it does. -/
def endValOf (c : Clarif) : Option (Option PDate) :=
  if pyLower c.field_name = "end_date" then
    (if ongoingWords.contains (pyLower (pyStrip c.user_answer)) then some none
     else (firstParse clarDateFmts (pyStrip c.user_answer)).map some)
  else none

/-- The value a clarification writes into client_name, when it does. -/
def clientValOf (c : Clarif) : Option String :=
  if pyLower c.field_name = "client_name" then some (pyStrip c.user_answer)
  else none

/-- The value a clarification writes into total_value, when it does. -/
def totalValOf (c : Clarif) : Option (Option PDec) :=
  if pyLower c.field_name = "total_value" then
    (totalValueFromAnswer (pyStrip c.user_answer)).map (fun p => some p.1)
  else none

/-- The value a clarification writes into currency, when it does. -/
def currValOf (c : Clarif) : Option String :=
  if pyLower c.field_name = "currency" then
    currencyFromAnswer (pyStrip c.user_answer)
  else none

/-- The value a clarification writes into contract_number, when it does. -/
def cnumValOf (c : Clarif) : Option String :=
  if pyLower c.field_name = "contract_number" then some (pyStrip c.user_answer)
  else none

/-- Last value written by a clarification list under a per-field value
function. -/
def lastSomeVal {α : Type} (g : Clarif → Option α) : List Clarif → Option α
  | [] => none
  | c :: t =>
    match lastSomeVal g t with
    | some v => some v
    | none => g c

/-! ## Concrete inputs used by witnesses and counterexamples -/

/-- A contract state before clarifications are applied. -/
def cexState : CState := ⟨none, none, "Acme", none, "USD", "C-1", ""⟩

/-- One answered payment-terms clarification. -/
def cexClars : List Clarif := [⟨"payment_terms", "Net 30", true⟩]

/-- A PDF behaviour where both extractors succeed and neither produces a
page: no text, no tables, no errors. -/
def emptyBehavior : PdfBehavior := ⟨"empty.pdf", true, 1000, .ok [], .ok []⟩

/-- The extraction result of the empty PDF. -/
def emptyResult : TextResult :=
  { file_path := "empty.pdf", file_size := 1000, pages := [], full_text := "",
    tables := [], extraction_method := "pypdf2", confidence_score := 0,
    errors := [] }

/-- A PDF behaviour where the fallback extractor reports one page whose
text is a single space: the joined text is non-empty but all whitespace. -/
def wsBehavior : PdfBehavior := ⟨"ws.pdf", true, 1000, .ok [], .ok [.ok " "]⟩

/-- The extraction result of the whitespace PDF. -/
def wsResult : TextResult :=
  { file_path := "ws.pdf", file_size := 1000,
    pages := [{ page_number := 1, text := " ", char_count := 1 }],
    full_text := " ", tables := [], extraction_method := "pypdf2",
    confidence_score := 0, errors := [] }

/-- A decoded model response that is a JSON object without the two
sections. -/
def badResponse : Json := .obj [("foo", .num 1)]

/-- A clarification entry list holding a single well-formed entry. -/
def entryListOk : List Json := [.obj [("field", .str "start_date")]]

/-- The clarification row the well-formed entry creates. -/
def entryRowOk : ClarRow :=
  { field_name := "start_date", ai_question := "", context_snippet := "",
    page_number := none, answered := false, user_answer := none }

/-- A clarification entry list holding a single malformed (non-dict)
entry. -/
def entryListBad : List Json := [.str "oops"]

/-- A validated extraction with a start date and no end date. -/
def aiNoEnd : ValidatedData :=
  { client_name := "Acme", total_value := some 1000, currency := "USD",
    start_date := some "2024-03-01", end_date := none,
    payment_milestones := [], payment_frequency := "monthly",
    confidence_score := 95 }

/-- A validated extraction with both dates. -/
def aiBothDates : ValidatedData :=
  { client_name := "Acme", total_value := some 1000, currency := "USD",
    start_date := some "2024-03-01", end_date := some "2025-06-30",
    payment_milestones := [], payment_frequency := "monthly",
    confidence_score := 95 }

/-! ## Supporting lemmas -/

/-- A clarification entry creates a row exactly when it is a dict, so the
row count equals the dict-entry count. -/
theorem filterMap_mkClarRow_length (l : List Json) :
    (l.filterMap mkClarRow).length = (l.filter isJsonObj).length := by
  induction l with
  | nil => rfl
  | cons e t ih => cases e <;> simp [mkClarRow, isJsonObj, ih]

/-- The update messages of one apply_clarifications iteration depend only
on the clarification, not on the contract state. -/
theorem applyOneClar_msgs (s : CState) (c : Clarif) :
    (applyOneClar s c).2 = clarMsgs c := by
  unfold clarMsgs applyOneClar
  dsimp only
  split_ifs <;>
    first
      | rfl
      | (exfalso; simp_all; done)
      | (cases firstParse clarDateFmts (pyStrip c.user_answer) <;> rfl)
      | (rcases totalValueFromAnswer (pyStrip c.user_answer) with _ | ⟨v, m⟩ <;> rfl)
      | (cases currencyFromAnswer (pyStrip c.user_answer) <;> rfl)

/-- The updates_made list of the loop depends only on the clarification
list. -/
theorem applyClarLoop_msgs (cs : List Clarif) :
    ∀ s t : CState, (applyClarLoop s cs).2 = (applyClarLoop t cs).2 := by
  induction cs with
  | nil => intro s t; rfl
  | cons c rest ih =>
    intro s t
    show (applyOneClar s c).2 ++ (applyClarLoop (applyOneClar s c).1 rest).2 =
         (applyOneClar t c).2 ++ (applyClarLoop (applyOneClar t c).1 rest).2
    rw [applyOneClar_msgs s c, applyOneClar_msgs t c,
      ih (applyOneClar s c).1 (applyOneClar t c).1]

/-- One iteration writes start_date according to startValOf. -/
theorem applyOneClar_start (s : CState) (c : Clarif) :
    (applyOneClar s c).1.start_date = (startValOf c).getD s.start_date := by
  unfold applyOneClar startValOf
  dsimp only
  split_ifs <;>
    first
      | rfl
      | (exfalso; simp_all; done)
      | (cases firstParse clarDateFmts (pyStrip c.user_answer) <;> rfl)
      | (rcases totalValueFromAnswer (pyStrip c.user_answer) with _ | ⟨v, m⟩ <;> rfl)
      | (cases currencyFromAnswer (pyStrip c.user_answer) <;> rfl)

/-- One iteration writes end_date according to endValOf. -/
theorem applyOneClar_end (s : CState) (c : Clarif) :
    (applyOneClar s c).1.end_date = (endValOf c).getD s.end_date := by
  unfold applyOneClar endValOf
  dsimp only
  split_ifs <;>
    first
      | rfl
      | (exfalso; simp_all; done)
      | (cases firstParse clarDateFmts (pyStrip c.user_answer) <;> rfl)
      | (rcases totalValueFromAnswer (pyStrip c.user_answer) with _ | ⟨v, m⟩ <;> rfl)
      | (cases currencyFromAnswer (pyStrip c.user_answer) <;> rfl)

/-- One iteration writes client_name according to clientValOf. -/
theorem applyOneClar_client (s : CState) (c : Clarif) :
    (applyOneClar s c).1.client_name = (clientValOf c).getD s.client_name := by
  unfold applyOneClar clientValOf
  dsimp only
  split_ifs <;>
    first
      | rfl
      | (exfalso; simp_all; done)
      | (cases firstParse clarDateFmts (pyStrip c.user_answer) <;> rfl)
      | (rcases totalValueFromAnswer (pyStrip c.user_answer) with _ | ⟨v, m⟩ <;> rfl)
      | (cases currencyFromAnswer (pyStrip c.user_answer) <;> rfl)

/-- One iteration writes total_value according to totalValOf. -/
theorem applyOneClar_total (s : CState) (c : Clarif) :
    (applyOneClar s c).1.total_value = (totalValOf c).getD s.total_value := by
  unfold applyOneClar totalValOf
  dsimp only
  split_ifs <;>
    first
      | rfl
      | (exfalso; simp_all; done)
      | (cases firstParse clarDateFmts (pyStrip c.user_answer) <;> rfl)
      | (rcases totalValueFromAnswer (pyStrip c.user_answer) with _ | ⟨v, m⟩ <;> rfl)
      | (cases currencyFromAnswer (pyStrip c.user_answer) <;> rfl)

/-- One iteration writes currency according to currValOf. -/
theorem applyOneClar_curr (s : CState) (c : Clarif) :
    (applyOneClar s c).1.currency = (currValOf c).getD s.currency := by
  unfold applyOneClar currValOf
  dsimp only
  split_ifs <;>
    first
      | rfl
      | (exfalso; simp_all; done)
      | (cases firstParse clarDateFmts (pyStrip c.user_answer) <;> rfl)
      | (rcases totalValueFromAnswer (pyStrip c.user_answer) with _ | ⟨v, m⟩ <;> rfl)
      | (cases currencyFromAnswer (pyStrip c.user_answer) <;> rfl)

/-- One iteration writes contract_number according to cnumValOf. -/
theorem applyOneClar_cnum (s : CState) (c : Clarif) :
    (applyOneClar s c).1.contract_number = (cnumValOf c).getD s.contract_number := by
  unfold applyOneClar cnumValOf
  dsimp only
  split_ifs <;>
    first
      | rfl
      | (exfalso; simp_all; done)
      | (cases firstParse clarDateFmts (pyStrip c.user_answer) <;> rfl)
      | (rcases totalValueFromAnswer (pyStrip c.user_answer) with _ | ⟨v, m⟩ <;> rfl)
      | (cases currencyFromAnswer (pyStrip c.user_answer) <;> rfl)

/-- A field projection of the loop result is the last written value, or
the initial one when nothing writes it. -/
theorem applyClarLoop_proj {α : Type} (proj : CState → α) (g : Clarif → Option α)
    (hstep : ∀ s c, proj (applyOneClar s c).1 = (g c).getD (proj s)) :
    ∀ (cs : List Clarif) (s : CState),
      proj (applyClarLoop s cs).1 = (lastSomeVal g cs).getD (proj s) := by
  intro cs
  induction cs with
  | nil => intro s; rfl
  | cons c t ih =>
    intro s
    show proj (applyClarLoop (applyOneClar s c).1 t).1 = _
    rw [ih, hstep]
    cases h1 : lastSomeVal g t <;> cases h2 : g c <;>
      simp [lastSomeVal, h1, h2]

/-- Rerunning the loop does not move a field projection again. -/
theorem applyClarLoop_proj_idem {α : Type} (proj : CState → α) (g : Clarif → Option α)
    (hstep : ∀ s c, proj (applyOneClar s c).1 = (g c).getD (proj s))
    (cs : List Clarif) (s : CState) :
    proj (applyClarLoop (applyClarLoop s cs).1 cs).1 = proj (applyClarLoop s cs).1 := by
  rw [applyClarLoop_proj proj g hstep]
  cases h : lastSomeVal g cs with
  | none => simp
  | some v => rw [applyClarLoop_proj proj g hstep, h]; simp

/-! ## Claim theorems -/

/-- C4: for every milestone whose status is not paid, is_overdue holds
exactly when the due date is strictly before the current date; and the
save-time recomputation changes the status only from pending to overdue,
never backward. -/
theorem C4_overdue_iff_and_monotone (today : PDate) (m : Milestone) :
    (m.status ≠ "paid" →
      (milestoneIsOverdue today m = true ↔ pdateLt m.due_date today = true)) ∧
    ((milestoneSave today m).status ≠ m.status →
      m.status = "pending" ∧ (milestoneSave today m).status = "overdue") := by
  constructor
  · intro h
    simp [milestoneIsOverdue, h]
  · intro h
    unfold milestoneSave at h ⊢
    split at h
    next hc =>
      simp only [Bool.and_eq_true, decide_eq_true_eq] at hc
      exact ⟨hc.2, by simp [hc.1, hc.2]⟩
    next hc => exact absurd rfl h

/-- Witness for C4 at a pending milestone due before the current date. -/
theorem C4_witness :
    (milestoneIsOverdue ⟨2024, 6, 1⟩ ⟨⟨2024, 1, 1⟩, "pending"⟩ = true ↔
      pdateLt ⟨2024, 1, 1⟩ ⟨2024, 6, 1⟩ = true) ∧
    ("pending" = "pending" ∧
      (milestoneSave ⟨2024, 6, 1⟩ ⟨⟨2024, 1, 1⟩, "pending"⟩).status = "overdue") :=
  ⟨(C4_overdue_iff_and_monotone ⟨2024, 6, 1⟩ ⟨⟨2024, 1, 1⟩, "pending"⟩).1 (by decide),
   (C4_overdue_iff_and_monotone ⟨2024, 6, 1⟩ ⟨⟨2024, 1, 1⟩, "pending"⟩).2 (by decide)⟩

/-- C9: the amount parser turns the dollar text with commas into the
decimal fifty thousand, and the monthly-rate text is matched by the
monthly-rate regex with parsed decimal value fifteen thousand. -/
theorem C9_round_trip :
    parseMatchValue "$50,000.00" "dollar_amounts" = some (.dec ⟨5000000, 2⟩) ∧
    PDec.toRat ⟨5000000, 2⟩ = 50000 ∧
    rateMatches monthlyUnits "$15,000/month" = true ∧
    parseMatchValue "$15,000/month" "monthly_rates" = some (.dec ⟨15000, 0⟩) ∧
    PDec.toRat ⟨15000, 0⟩ = 15000 :=
  ⟨rfl, by norm_num [PDec.toRat], rfl, rfl, by norm_num [PDec.toRat]⟩

/-- C10: when the extracted data binds client_name to an explicit null,
validation yields the empty string; the Unknown Client default appears
only when the key is absent. -/
theorem C10_client_name_null_vs_missing (kvs : List (String × Json)) :
    (jget kvs "client_name" = some Json.null →
      (validateExtractedData kvs).client_name = "") ∧
    (jget kvs "client_name" = none →
      (validateExtractedData kvs).client_name = "Unknown Client" ∧
      (validateExtractedData kvs).client_name = cleanString (.str "Unknown Client")) := by
  constructor
  · intro h
    simp [validateExtractedData, h, cleanString, jFalsy]
  · intro h
    refine ⟨?_, ?_⟩ <;> (simp only [validateExtractedData, h, Option.getD]; try rfl)

/-- Witness for C10 at a dictionary with a null client name and at a
dictionary without the key. -/
theorem C10_witness :
    (validateExtractedData [("client_name", Json.null)]).client_name = "" ∧
    (validateExtractedData []).client_name = "Unknown Client" :=
  ⟨(C10_client_name_null_vs_missing [("client_name", Json.null)]).1 rfl,
   ((C10_client_name_null_vs_missing []).2 rfl).1⟩

/-- C5 counterexample: a decoded top-level object that is not the
two-section shape is coerced into the legacy wrapping instead of being
rejected. -/
theorem C5_counterexample :
    twoSectionShape badResponse = false ∧
    parseAiResponseJ badResponse =
      .ok (.obj [("extracted_data", badResponse), ("clarifications_needed", .arr [])]) :=
  ⟨rfl, rfl⟩

/-- C5 amended: response parsing fails only when JSON decoding fails or
when the decoded top level does not support the containment test; any
decoded value lacking the extracted_data key is wrapped into the legacy
shape with no clarifications, and a value containing the key is returned
unchanged. -/
theorem C5_amended (j : Json) :
    (aiParseResponse none = .error ()) ∧
    (exceptIsOk (parseAiResponseJ j) = exceptIsOk (jsonContainsStr j "extracted_data")) ∧
    (∀ b, jsonContainsStr j "extracted_data" = .ok b →
      parseAiResponseJ j =
        .ok (if b then j
             else .obj [("extracted_data", j), ("clarifications_needed", .arr [])])) := by
  refine ⟨rfl, ?_, ?_⟩
  · unfold parseAiResponseJ
    cases h : jsonContainsStr j "extracted_data" with
    | ok b => cases b <;> rfl
    | error e => rfl
  · intro b h
    unfold parseAiResponseJ
    rw [h]
    cases b <;> rfl

/-- Witness for C5 at a decoded plain-string response, coerced to the
legacy shape. -/
theorem C5_amended_witness :
    parseAiResponseJ (Json.str "plain text") =
      .ok (.obj [("extracted_data", Json.str "plain text"),
                 ("clarifications_needed", .arr [])]) :=
  (C5_amended (Json.str "plain text")).2.2 false rfl

/-- C3 counterexample: a clarification list holding one malformed
(non-dict) entry still flips the status but creates no row, so the
one-row-per-entry part of the claim fails. -/
theorem C3_counterexample :
    (processClarifications entryListBad).1 = "needs_clarification" ∧
    (processClarifications entryListBad).2 = [] ∧
    entryListBad.length = 1 :=
  ⟨rfl, rfl, rfl⟩

/-- C3 amended: the final status is needs_clarification exactly when the
entry list is nonempty (else completed), and one unanswered row is
created per dict-shaped entry, malformed entries being skipped by the
per-row exception handler. -/
theorem C3_amended (entries : List Json) :
    ((processClarifications entries).1 = "needs_clarification" ↔ entries ≠ []) ∧
    ((processClarifications entries).1 = "completed" ↔ entries = []) ∧
    (processClarifications entries).2.length = (entries.filter isJsonObj).length ∧
    (∀ row ∈ (processClarifications entries).2, row.answered = false) := by
  refine ⟨?_, ?_, ?_, ?_⟩
  · cases entries <;> simp [processClarifications]
  · cases entries <;> simp [processClarifications]
  · cases entries with
    | nil => rfl
    | cons e t =>
      simp only [processClarifications, List.isEmpty_cons, if_neg Bool.false_ne_true]
      exact filterMap_mkClarRow_length (e :: t)
  · intro row hr
    cases entries with
    | nil => simp [processClarifications] at hr
    | cons e t =>
      simp only [processClarifications, List.isEmpty_cons] at hr
      rw [if_neg Bool.false_ne_true] at hr
      obtain ⟨a, _, hma⟩ := List.mem_filterMap.mp hr
      cases a <;> simp only [mkClarRow, Option.some.injEq, reduceCtorEq] at hma
      subst hma
      rfl

/-- Witness for C3 at a list with one well-formed entry. -/
theorem C3_amended_witness :
    entryListOk ≠ [] ∧
    (processClarifications entryListOk).1 = "needs_clarification" ∧
    entryRowOk ∈ (processClarifications entryListOk).2 ∧
    entryRowOk.answered = false := by
  have hmem : entryRowOk ∈ (processClarifications entryListOk).2 := by
    show entryRowOk ∈ [entryRowOk]
    exact List.mem_singleton.mpr rfl
  exact ⟨by simp [entryListOk],
         (C3_amended entryListOk).1.mpr (by simp [entryListOk]),
         hmem,
         (C3_amended entryListOk).2.2.2 entryRowOk hmem⟩

/-- C1: when the parsed end date is absent and the parsed start date is
present, the mapping step sets the end date to the start date plus 365
days; when the end date parses it is kept unchanged. -/
theorem C1_default_end_date (v : ValidatedData) :
    (∀ sd, parseDateFromString v.end_date = none →
      parseDateFromString v.start_date = some sd →
      (mapAiDataToModels v).contract_data.end_date = some (addDays sd 365)) ∧
    (∀ ed, parseDateFromString v.end_date = some ed →
      (mapAiDataToModels v).contract_data.end_date = some ed) := by
  constructor
  · intro sd h1 h2
    simp [mapAiDataToModels, h1, h2]
  · intro ed h1
    rcases hsd : parseDateFromString v.start_date with _ | sd
    all_goals simp [mapAiDataToModels, h1, hsd]

/-- Witness for C1: a missing end date defaults to one year after the
start, and a present end date is kept. -/
theorem C1_witness :
    (mapAiDataToModels aiNoEnd).contract_data.end_date = some ⟨2025, 3, 1⟩ ∧
    (mapAiDataToModels aiBothDates).contract_data.end_date = some ⟨2025, 6, 30⟩ :=
  ⟨(C1_default_end_date aiNoEnd).1 ⟨2024, 3, 1⟩ rfl rfl,
   (C1_default_end_date aiBothDates).2 ⟨2025, 6, 30⟩ rfl⟩

/-- C8 counterexample: a quarterly-rate match in full currency shape
keeps the base confidence of fifty; the amount-shape bonus does not
apply to quarterly (or annual) rate types. -/
theorem C8_counterexample :
    rateMatches quarterlyUnits "$25,000.00/quarter" = true ∧
    matchesCurrencyFull "$25,000.00/quarter" = true ∧
    calcMatchConfidence "$25,000.00/quarter" "quarterly_rates" = 50 ∧
    (50 : ℚ) ≠ 80 := by
  refine ⟨rfl, rfl, by decide, by norm_num⟩

/-- C8 amended: per-match confidence is the base fifty plus the
amount-shape adjustment restricted to the dollar, hourly and monthly
types, plus the phrase bonus, minus the short-match penalty, clamped. -/
theorem C8_amended (t pt : String) :
    calcMatchConfidence t pt =
      max 0 (min 100 ((50 : ℚ) +
        (if ["dollar_amounts", "hourly_rates", "monthly_rates"].contains pt then
          (if matchesCurrencyFull t then (30 : ℚ)
           else if matchesCurrencyLoose t then 20 else 0)
         else 0) +
        (if ["payment_terms", "due_on_receipt"].contains pt then (20 : ℚ) else 0) -
        (if t.data.length < 3 then (20 : ℚ) else 0))) := by
  simp only [calcMatchConfidence]
  refine congrArg (fun x : ℚ => max 0 (min 100 x)) ?_
  split_ifs <;> ring

/-- C2 counterexample: with one answered payment-terms clarification, a
second apply_clarifications call returns the same nonempty updates_made
list again and appends the clarified line to the notes a second time. -/
theorem C2_counterexample :
    (applyClarifications (applyClarifications cexState cexClars).1 cexClars).2 ≠ [] ∧
    (applyClarifications (applyClarifications cexState cexClars).1 cexClars).1.notes ≠
      (applyClarifications cexState cexClars).1.notes := by
  decide

/-- C2 amended: with no new answers, a second apply_clarifications call
returns exactly the same updates_made list as the first (so it is empty
only when the first one was) and leaves every field except notes
unchanged; notes-routed clarifications are appended again. -/
theorem C2_second_run (s : CState) (cs : List Clarif) :
    (applyClarifications (applyClarifications s cs).1 cs).2 =
      (applyClarifications s cs).2 ∧
    (applyClarifications (applyClarifications s cs).1 cs).1.start_date =
      (applyClarifications s cs).1.start_date ∧
    (applyClarifications (applyClarifications s cs).1 cs).1.end_date =
      (applyClarifications s cs).1.end_date ∧
    (applyClarifications (applyClarifications s cs).1 cs).1.client_name =
      (applyClarifications s cs).1.client_name ∧
    (applyClarifications (applyClarifications s cs).1 cs).1.total_value =
      (applyClarifications s cs).1.total_value ∧
    (applyClarifications (applyClarifications s cs).1 cs).1.currency =
      (applyClarifications s cs).1.currency ∧
    (applyClarifications (applyClarifications s cs).1 cs).1.contract_number =
      (applyClarifications s cs).1.contract_number := by
  unfold applyClarifications
  refine ⟨applyClarLoop_msgs _ _ _, ?_, ?_, ?_, ?_, ?_, ?_⟩
  · exact applyClarLoop_proj_idem _ startValOf applyOneClar_start _ _
  · exact applyClarLoop_proj_idem _ endValOf applyOneClar_end _ _
  · exact applyClarLoop_proj_idem _ clientValOf applyOneClar_client _ _
  · exact applyClarLoop_proj_idem _ totalValOf applyOneClar_total _ _
  · exact applyClarLoop_proj_idem _ currValOf applyOneClar_curr _ _
  · exact applyClarLoop_proj_idem _ cnumValOf applyOneClar_cnum _ _

/-- Every successful extraction carries the confidence computed over its
own result fields. -/
theorem extractConfEq (b : PdfBehavior) (r : TextResult)
    (h : extractTextFromPdf b = .ok r) :
    r.confidence_score = calcConfidenceScore r := by
  unfold extractTextFromPdf at h
  dsimp only at h
  repeat'
    first
      | exact Except.noConfusion h
      | (simp only [Except.ok.injEq] at h; subst h; exact rfl)
      | split at h

/-- Confidence evaluates to zero on a result with no usable signal. -/
theorem calcConf_eval_zero (r : TextResult) (htext : pyStrip r.full_text = "")
    (hlen : r.full_text.data.length ≤ 2000) (hpages : r.pages.length ≤ 1)
    (htables : r.tables.isEmpty = true) (herr : r.errors = [])
    (hkw : keywordCount r.full_text = 0) :
    calcConfidenceScore r = 0 := by
  unfold calcConfidenceScore
  dsimp only
  rw [if_neg (by omega), if_neg (by omega), if_neg (by simp [htables]),
    if_neg (by omega), if_neg (by simp [htext]), herr, hkw]
  norm_num [min_def, max_def]

/-- The whitespace PDF evaluates to its expected extraction result. -/
theorem extract_ws : extractTextFromPdf wsBehavior = .ok wsResult := by
  have h1 : extractTextFromPdf wsBehavior = .ok (finishResult wsResult) := rfl
  have h2 : calcConfidenceScore wsResult = 0 :=
    calcConf_eval_zero wsResult (by decide) (by decide) (by decide) rfl rfl (by decide)
  rw [h1]
  unfold finishResult
  rw [h2]
  rfl

/-- The empty PDF evaluates to its expected extraction result. -/
theorem extract_empty : extractTextFromPdf emptyBehavior = .ok emptyResult := by
  have h1 : extractTextFromPdf emptyBehavior = .ok (finishResult emptyResult) := rfl
  have h2 : calcConfidenceScore emptyResult = 0 :=
    calcConf_eval_zero emptyResult (by decide) (by decide) (by decide) rfl rfl (by decide)
  rw [h1]
  unfold finishResult
  rw [h2]
  rfl

/-- C7 counterexample: a reachable result whose joined text is a single
space has code confidence zero, while the claim formula (non-empty text)
gives thirty. -/
theorem C7_counterexample :
    extractTextFromPdf wsBehavior = .ok wsResult ∧
    wsResult.confidence_score = 0 ∧
    calcConfidenceScore wsResult = 0 ∧
    claimConfFormula wsResult = 30 := by
  refine ⟨extract_ws, rfl,
    calcConf_eval_zero wsResult (by decide) (by decide) (by decide) rfl rfl (by decide), ?_⟩
  unfold claimConfFormula
  rw [if_pos (by decide : wsResult.full_text ≠ ""), if_neg (by decide),
    if_neg (by decide), if_neg (by decide), if_neg (by decide),
    (by decide : keywordCount wsResult.full_text = 0)]
  norm_num [min_def, max_def, wsResult]

/-- C7 amended: the document confidence score equals the additive
formula with the thirty-point bonus conditioned on the text containing a
non-whitespace character (not merely on being non-empty), clamped. -/
theorem C7_conf_formula (r : TextResult) :
    calcConfidenceScore r = amendedConfFormula r := by
  unfold calcConfidenceScore amendedConfFormula
  dsimp only
  refine congrArg (fun x : ℚ => max 0 (min 100 x)) ?_
  split_ifs <;> ring

/-- C6 counterexample: a PDF for which both extractors succeed with no
text yields confidence zero but extraction_successful stays True with an
empty error list; nothing in the parser records a no-text message. -/
theorem C6_counterexample :
    (extractPaymentInformation emptyBehavior).full_text = "" ∧
    (extractPaymentInformation emptyBehavior).confidence_score = 0 ∧
    (extractPaymentInformation emptyBehavior).extraction_successful = true ∧
    (extractPaymentInformation emptyBehavior).errors = [] := by
  refine ⟨?_, ?_, ?_, ?_⟩ <;> simp [extractPaymentInformation, extract_empty, emptyResult]

/-- C6 amended: when extraction succeeds with no pages, tables, errors or
text, the result has confidence zero and empty errors but
extraction_successful is True; the no-text message is added only by the
orchestrator warning computation over that result. -/
theorem C6_empty_extraction (b : PdfBehavior) (r : TextResult)
    (hok : extractTextFromPdf b = .ok r)
    (htext : r.full_text = "") (hpages : r.pages = [])
    (htables : r.tables = []) (herr : r.errors = []) :
    (extractPaymentInformation b).extraction_successful = true ∧
    (extractPaymentInformation b).confidence_score = 0 ∧
    (extractPaymentInformation b).errors = [] ∧
    ∀ pc : String → Nat,
      "No text extracted from PDF" ∈
        extractPaymentDataWarnings (extractPaymentInformation b) pc := by
  have hconf : r.confidence_score = 0 := by
    rw [extractConfEq b r hok]
    exact calcConf_eval_zero r (by rw [htext]; rfl) (by rw [htext]; decide)
      (by rw [hpages]; decide) (by rw [htables]; rfl) herr (by rw [htext]; decide)
  refine ⟨?_, ?_, ?_, ?_⟩
  · simp only [extractPaymentInformation, hok]
  · simp only [extractPaymentInformation, hok]
    exact hconf
  · simp only [extractPaymentInformation, hok]
    exact herr
  · intro pc
    have hps : pyStrip ("" : String) = "" := rfl
    simp only [extractPaymentInformation, hok, extractPaymentDataWarnings, htext, hps]
    simp

/-- Witness for C6 at the empty PDF behaviour. -/
theorem C6_witness :
    (extractPaymentInformation emptyBehavior).extraction_successful = true ∧
    (extractPaymentInformation emptyBehavior).confidence_score = 0 ∧
    (extractPaymentInformation emptyBehavior).errors = [] ∧
    "No text extracted from PDF" ∈
      extractPaymentDataWarnings (extractPaymentInformation emptyBehavior)
        (fun _ => 0) := by
  have h := C6_empty_extraction emptyBehavior emptyResult extract_empty rfl rfl rfl rfl
  exact ⟨h.1, h.2.1, h.2.2.1, h.2.2.2 (fun _ => 0)⟩

end Contracts
